import Mathlib

/-!
Verification of the rd-compare differential-testing harness
(src/compare_versions.py) via a shallow embedding.

Strings are embedded as lists of characters (`Str`), the shared Redis
backing store as an association list of raw key/value pairs (`Store`).
An implementation instance (`RDInst`) carries its namespace and its own
state-reporting method `toDict` (the embedding of `RedisDict.to_dict`,
which the harness deliberately does not trust: `run_closure` cross-checks
it against the raw store).  An operation script (`Script`) is a function
of the instance and the store that either returns an optional value or
raises a Python exception (`PyExc`), possibly mutating the store either
way (partial failure).
-/

namespace RdCompare

abbrev Str := List Char

abbrev Store := List (Str × Str)

/-- A value an operation script may return (string or integer payloads
appear in the source's scenarios). -/
inductive Value where
  | vStr : Str → Value
  | vInt : Int → Value
deriving DecidableEq

/-- A Python exception object as the harness observes it: its category
(type name), its `message` attribute when the object exposes one
(`none` embeds an exception lacking the attribute, so that reading it
raises an attribute-access failure), and an identity token `objId` that
stands for reference identity and is never inspected by any comparison. -/
structure PyExc where
  kind : Str
  message : Option Str
  objId : Nat
deriving DecidableEq

/-- The error record built at src/compare_versions.py line 74:
`exc = (object: e, message: e.message)`. -/
structure CapturedErr where
  object : PyExc
  message : Str
deriving DecidableEq

/-- The three-field Execution Outcome returned by `run_closure`
(line 83): `(result: ..., exception: ..., state: ...)`. -/
structure Outcome where
  result : Option Value
  exc : Option CapturedErr
  state : Store
deriving DecidableEq

/-- Harness-internal failures: the step-3 consistency `assertEqual`
failing (line 80), or the attribute access `e.message` failing inside
the except clause (line 74).  Distinct from `CapturedErr`, which is part
of an Outcome. -/
inductive HarnessError where
  | assertionFailed
  | attributeError
deriving DecidableEq

/-- What leaves `run_closure`: either an Execution Outcome or a
propagating harness-internal failure. -/
inductive RunResult where
  | ok : Outcome → RunResult
  | harness : HarnessError → RunResult
deriving DecidableEq

/-- An implementation instance: its namespace and its state-reporting
method (`to_dict`), which maps the raw store to the mapping the
implementation claims as its contents. -/
structure RDInst where
  ns : Str
  toDict : Store → Store

/-- An operation script (a test closure): runs against an instance and
the store, returns an optional value or raises, and may have mutated
the store either way. -/
abbrev Script := RDInst → Store → (Except PyExc (Option Value)) × Store

/-- The shared key pattern of `clear_test_namespace`
(line 58, `scan_iter with pattern rd_compare_ followed by a glob star`):
every key starting with this prefix list is deleted. -/
def rdPat : Str := ['r', 'd', '_', 'c', 'o', 'm', 'p', 'a', 'r', 'e', '_']

/-- Embedding of `clear_test_namespace` (lines 55-59): delete every key
in the backing store matched by the shared pattern. -/
def clear_test_namespace (st : Store) : Store :=
  st.filter (fun kv => !(rdPat.isPrefixOf kv.1))

/-- Embedding of `redisdb.scan_iter` with a namespace glob (line 79):
the raw keys in the store that start with the given namespace. -/
def scanKeys (ns : Str) (st : Store) : List Str :=
  (st.map Prod.fst).filter (fun k => ns.isPrefixOf k)

/-- Embedding of line 78: the number of leading characters stripped from
each raw key, computed as the length of `namespace.split(colon)[0]`
plus one.  `takeWhile` of the characters differing from the colon is
exactly the first segment of the Python split. -/
def to_rm (ns : Str) : Nat := (ns.takeWhile (fun c => c != ':')).length + 1

/-- The stripped raw-key list of line 79: each scanned key with its
first `to_rm` characters removed. -/
def rawStripped (rd : RDInst) (st : Store) : List Str :=
  (scanKeys rd.ns st).map (fun k => k.drop (to_rm rd.ns))

/-- The string order used to embed Python's `sorted` on strings. -/
def strLe : Str → Str → Bool
  | [], _ => true
  | _ :: _, [] => false
  | a :: as, b :: bs => if a < b then true else if b < a then false else strLe as bs

def strLeP (a b : Str) : Prop := strLe a b = true

instance strLePDec : DecidableRel strLeP := fun a b =>
  (inferInstance : Decidable (strLe a b = true))

/-- Embedding of Python's `sorted` over lists of strings (line 80). -/
def ssort (l : List Str) : List Str := List.insertionSort strLeP l

/-- Embedding of `run_closure` (lines 64-83).  The try body runs the
closure; the except clause reads `e.message` (raising an
attribute-access failure when the attribute is absent); the finally
block reads `to_dict`, asserts the sorted stripped raw keys equal the
sorted state keys, and only after a successful assertion deletes the
shared test keys; an outcome is returned only when no harness failure
propagated. -/
def run_closure (rd : RDInst) (closure : Script) (store : Store) : RunResult × Store :=
  if ssort (rawStripped rd (closure rd store).2) =
      ssort (((rd.toDict (closure rd store).2).map Prod.fst)) then
    match (closure rd store).1 with
    | .ok v =>
        (.ok ⟨v, none, rd.toDict (closure rd store).2⟩,
         clear_test_namespace (closure rd store).2)
    | .error e =>
        match e.message with
        | some m =>
            (.ok ⟨none, some ⟨e, m⟩, rd.toDict (closure rd store).2⟩,
             clear_test_namespace (closure rd store).2)
        | none =>
            (.harness .attributeError, clear_test_namespace (closure rd store).2)
  else (.harness .assertionFailed, (closure rd store).2)

/-- Verdict of one scenario as unittest reports it. -/
inductive TestVerdict where
  | passed
  | failed
  | skipped
deriving DecidableEq

/-- Embedding of `hasattr(self.d1, func)` against the reference
instance's exposed operation set. -/
def hasAttr (caps : List Str) (f : Str) : Bool := caps.contains f

/-- Embedding of the `requireFunctions` decorator (lines 33-43): build
the list of missing-capability flags for the reference instance's
capability set `caps1`; if any function is missing, skip (returning the
store untouched); otherwise run the wrapped testcase (which stands for
the whole scenario against both implementations and may use the
store). -/
def requireFunctions (functions : List Str) (caps1 : List Str)
    (testcase : Store → TestVerdict × Store) (store : Store) : TestVerdict × Store :=
  if (functions.map (fun f => !(hasAttr caps1 f))).any (fun b => b) then
    (.skipped, store)
  else testcase store

/-- Embedding of a Redis `SET` on a raw key: overwrite any previous
binding. -/
def storeSet (st : Store) (k v : Str) : Store :=
  st.filter (fun kv => kv.1 != k) ++ [(k, v)]

/-- The raw key an instance stores a logical key under:
namespace, colon, key. -/
def fullKey (ns k : Str) : Str := ns ++ ':' :: k

/-- A truthful state-reporting method: report exactly the raw keys under
the namespace (with the namespace and the joining colon stripped) and
their values.  Used to instantiate scenarios under the claims'
assumption that the implementation's reporting reflects the store. -/
def faithfulToDict (ns : Str) (st : Store) : Store :=
  (st.filter (fun kv => (ns ++ [':']).isPrefixOf kv.1)).map
    (fun kv => (kv.1.drop (ns.length + 1), kv.2))

/-- Namespace of the first (reference) instance, `rd_compare_v1`
(line 50). -/
def ns1 : Str := ['r', 'd', '_', 'c', 'o', 'm', 'p', 'a', 'r', 'e', '_', 'v', '1']

/-- Namespace of the second instance, `rd_compare_v2` (line 51). -/
def ns2 : Str := ['r', 'd', '_', 'c', 'o', 'm', 'p', 'a', 'r', 'e', '_', 'v', '2']

/-- The reference implementation instance with truthful reporting. -/
def d1 : RDInst := ⟨ns1, faithfulToDict ns1⟩

/-- The second implementation instance with truthful reporting. -/
def d2 : RDInst := ⟨ns2, faithfulToDict ns2⟩

/-- The `set_key` scenario script (lines 87-88): set key foo to bar,
return nothing. -/
def set_key : Script := fun rd st =>
  (.ok none, storeSet st (fullKey rd.ns ['f', 'o', 'o']) ['b', 'a', 'r'])

/-- A script that touches nothing and returns nothing. -/
def idScript : Script := fun _ st => (.ok none, st)

/-- Modelled from the spec: the Structural Diff Engine is the external
DeepDiff library, not part of this repository's sources.  Per the
spec's error rule, two error slots are equivalent only if both are
absent, or both are present with matching category and matching
descriptive text; a present error on one side and an absent one on the
other is always a difference.  This function decides emptiness of the
error part of the diff; it reads only the category and the captured
message, never `objId`. -/
def errDiffEmpty : Option CapturedErr → Option CapturedErr → Bool
  | none, none => true
  | some a, some b =>
      decide (a.object.kind = b.object.kind) && decide (a.message = b.message)
  | _, _ => false

/-- Modelled from the spec: state-versus-state comparison of the
Structural Diff Engine is unordered mapping equality. -/
def mapDiffEmpty (m1 m2 : Store) : Bool :=
  (m1.map Prod.fst).all (fun k => decide (m2.lookup k = m1.lookup k)) &&
  (m2.map Prod.fst).all (fun k => decide (m1.lookup k = m2.lookup k))

/-- Modelled from the spec: the Structural Diff Engine's verdict on two
Execution Outcomes is empty exactly when the results are structurally
equal, the error slots are equivalent, and the states agree as
unordered mappings. -/
def outcomeDiffEmpty (a b : Outcome) : Bool :=
  decide (a.result = b.result) && errDiffEmpty a.exc b.exc && mapDiffEmpty a.state b.state

/-- The outcome both instances produce for the `set_key` scenario. -/
def fooBarOutcome : Outcome :=
  ⟨none, none, [(['f', 'o', 'o'], ['b', 'a', 'r'])]⟩

/-- An instance whose state-reporting lies (it always claims to hold
nothing), used to exercise the consistency assertion's failure path. -/
def lyingInst : RDInst := ⟨ns1, fun _ => []⟩

/-- A store holding one raw key under the reference namespace. -/
def storeOneKey : Store := [(fullKey ns1 ['a'], ['b', 'a', 'r'])]

/-- A store holding one raw key under the second instance's namespace. -/
def storeV2Key : Store := [(fullKey ns2 ['a'], ['b', 'a', 'r'])]

/-- An exception carrying a message attribute. -/
def excWithMsg : PyExc := ⟨['K', 'e', 'y', 'E', 'r', 'r', 'o', 'r'], some ['f', 'o', 'o'], 0⟩

/-- The same category and message under a different object identity. -/
def excWithMsgOther : PyExc := ⟨['K', 'e', 'y', 'E', 'r', 'r', 'o', 'r'], some ['f', 'o', 'o'], 37⟩

/-- An exception lacking the message attribute. -/
def excNoMsg : PyExc := ⟨['K', 'e', 'y', 'E', 'r', 'r', 'o', 'r'], none, 1⟩

/-- A script raising an exception that carries a message. -/
def raiseWithMsg : Script := fun _ st => (.error excWithMsg, st)

/-- A script raising an exception lacking the message attribute. -/
def raiseNoMsg : Script := fun _ st => (.error excNoMsg, st)

/-- The Execution Outcome captured when `raiseWithMsg` runs against the
reference instance on an empty store. -/
def errOutcome : Outcome := ⟨none, some ⟨excWithMsg, ['f', 'o', 'o']⟩, []⟩

theorem ssort_perm (l : List Str) : List.Perm (ssort l) l :=
  List.perm_insertionSort strLeP l

theorem ssort_eq_perm {a b : List Str} (h : ssort a = ssort b) : List.Perm a b := by
  have ha := (ssort_perm a).symm
  rw [h] at ha
  exact ha.trans (ssort_perm b)

theorem isPrefixOf_trans : ∀ {a b c : Str},
    a.isPrefixOf b = true → b.isPrefixOf c = true → a.isPrefixOf c = true
  | [], _, _, _, _ => by simp [List.isPrefixOf]
  | _ :: _, [], _, h1, _ => by simp [List.isPrefixOf] at h1
  | _ :: _, _ :: _, [], _, h2 => by simp [List.isPrefixOf] at h2
  | a :: as, b :: bs, c :: cs, h1, h2 => by
      simp only [List.isPrefixOf, Bool.and_eq_true, beq_iff_eq] at h1 h2 ⊢
      exact ⟨h1.1.trans h2.1, isPrefixOf_trans h1.2 h2.2⟩

theorem mem_clear {kv : Str × Str} {st : Store} :
    kv ∈ clear_test_namespace st ↔ kv ∈ st ∧ rdPat.isPrefixOf kv.1 = false := by
  simp [clear_test_namespace, List.mem_filter]

theorem run_closure_snd {rd : RDInst} {closure : Script} {store : Store}
    (h : (run_closure rd closure store).1 ≠ RunResult.harness HarnessError.assertionFailed) :
    (run_closure rd closure store).2 = clear_test_namespace (closure rd store).2 := by
  unfold run_closure at h ⊢
  by_cases hc : ssort (rawStripped rd (closure rd store).2) =
      ssort (((rd.toDict (closure rd store).2).map Prod.fst))
  · rw [if_pos hc]
    split
    · rfl
    · split <;> rfl
  · rw [if_neg hc] at h
    exact absurd rfl h

theorem run_closure_ok {rd : RDInst} {closure : Script} {store : Store} {o : Outcome}
    {st2 : Store} (h : run_closure rd closure store = (RunResult.ok o, st2)) :
    ssort (rawStripped rd (closure rd store).2) =
      ssort (((rd.toDict (closure rd store).2).map Prod.fst)) ∧
    o.state = rd.toDict (closure rd store).2 ∧
    st2 = clear_test_namespace (closure rd store).2 ∧
    ((∃ v, (closure rd store).1 = Except.ok v ∧ o.result = v ∧ o.exc = none) ∨
     (∃ e m, (closure rd store).1 = Except.error e ∧ e.message = some m ∧
        o.result = none ∧ o.exc = some ⟨e, m⟩)) := by
  unfold run_closure at h
  by_cases hc : ssort (rawStripped rd (closure rd store).2) =
      ssort (((rd.toDict (closure rd store).2).map Prod.fst))
  · rw [if_pos hc] at h
    refine ⟨hc, ?_⟩
    split at h
    · rename_i v hv
      simp only [Prod.mk.injEq, RunResult.ok.injEq] at h
      obtain ⟨h1, h2⟩ := h
      subst h1
      exact ⟨rfl, h2.symm, Or.inl ⟨v, hv, rfl, rfl⟩⟩
    · rename_i e he
      split at h
      · rename_i m hm
        simp only [Prod.mk.injEq, RunResult.ok.injEq] at h
        obtain ⟨h1, h2⟩ := h
        subst h1
        exact ⟨rfl, h2.symm, Or.inr ⟨e, m, he, hm, rfl, rfl⟩⟩
      · simp at h
  · rw [if_neg hc] at h
    simp at h

theorem run_closure_diverge {rd : RDInst} {closure : Script} {store : Store}
    (h : ¬ List.Perm (rawStripped rd (closure rd store).2)
        ((rd.toDict (closure rd store).2).map Prod.fst)) :
    run_closure rd closure store =
      (RunResult.harness HarnessError.assertionFailed, (closure rd store).2) := by
  unfold run_closure
  rw [if_neg]
  intro hc
  exact h (ssort_eq_perm hc)

theorem takeWhile_append_of_all {p : Char → Bool} :
    ∀ (a b : Str), (∀ c ∈ a, p c = true) → (a ++ b).takeWhile p = a ++ b.takeWhile p
  | [], _, _ => rfl
  | x :: xs, b, h => by
      have hx : p x = true := h x (by simp)
      have ih := takeWhile_append_of_all xs b (fun c hc => h c (by simp [hc]))
      simp [List.takeWhile_cons, hx, ih]

/-- C1 (amended): `run_closure` performs the cleanup on every exit path
on which the step-3 consistency assertion does not itself fail: whenever
it terminates other than by the assertion, the final store is exactly
the post-script store with the shared test keys deleted, and in
particular (the two actual namespaces start with the shared pattern) no
key under the instance's namespace survives. -/
theorem c1_cleanup_amended :
    ∀ (rd : RDInst) (closure : Script) (store : Store),
      (run_closure rd closure store).1 ≠ RunResult.harness HarnessError.assertionFailed →
      (run_closure rd closure store).2 = clear_test_namespace (closure rd store).2 ∧
      (rdPat.isPrefixOf rd.ns = true →
        ∀ k v, rd.ns.isPrefixOf k = true → (k, v) ∉ (run_closure rd closure store).2) := by
  intro rd closure store h
  refine ⟨run_closure_snd h, ?_⟩
  intro hns k v hk hmem
  rw [run_closure_snd h] at hmem
  have := (mem_clear.mp hmem).2
  rw [isPrefixOf_trans hns hk] at this
  exact Bool.noConfusion this

/-- C1 witness: on the `set_key` scenario against the reference instance
the hypothesis holds, the final store is the cleared post-script store,
and the set raw key is gone. -/
theorem c1_cleanup_amended_witness :
    (run_closure d1 set_key []).2 = clear_test_namespace (set_key d1 []).2 ∧
    (fullKey ns1 ['f', 'o', 'o'], ['b', 'a', 'r']) ∉ (run_closure d1 set_key []).2 :=
  ⟨(c1_cleanup_amended d1 set_key [] (by decide)).1,
   (c1_cleanup_amended d1 set_key [] (by decide)).2 (by decide)
     (fullKey ns1 ['f', 'o', 'o']) ['b', 'a', 'r'] (by decide)⟩

/-- C1 counterexample: when the state-reporting lies, the step-3
assertion fails, `run_closure` terminates by raising, and the store it
leaves behind still holds a key under the instance's namespace — the
namespace was not cleared before control left `run_closure`. -/
theorem c1_counterexample :
    run_closure lyingInst idScript storeOneKey =
      (RunResult.harness HarnessError.assertionFailed, storeOneKey) ∧
    (fullKey ns1 ['a'], ['b', 'a', 'r']) ∈ (run_closure lyingInst idScript storeOneKey).2 ∧
    lyingInst.ns.isPrefixOf (fullKey ns1 ['a']) = true :=
  ⟨rfl, by decide, by decide⟩

/-- C2: two captured errors compare equal exactly when their category
and descriptive text match; the verdict never reads the object identity
token (or any other field of the exception object), and a present error
against an absent one is always a difference. -/
theorem c2_error_equivalence :
    (∀ x y : CapturedErr, errDiffEmpty (some x) (some y) = true ↔
        (x.object.kind = y.object.kind ∧ x.message = y.message)) ∧
    (∀ (k : Str) (ma mb : Option Str) (ia ib : Nat) (mx : Str),
        errDiffEmpty (some ⟨⟨k, ma, ia⟩, mx⟩) (some ⟨⟨k, mb, ib⟩, mx⟩) = true) ∧
    (∀ x : CapturedErr, errDiffEmpty (some x) none = false) ∧
    (∀ y : CapturedErr, errDiffEmpty none (some y) = false) := by
  refine ⟨?_, ?_, ?_, ?_⟩
  · intro x y
    simp [errDiffEmpty]
  · intro k ma mb ia ib mx
    simp [errDiffEmpty]
  · intro x
    rfl
  · intro y
    rfl

/-- C3: every Execution Outcome that `run_closure` returns has a state
key set equal to the stripped raw keys under the instance's namespace,
and when the two key sets diverge `run_closure` raises the
harness-internal assertion failure instead of returning an outcome. -/
theorem c3_consistency :
    (∀ (rd : RDInst) (closure : Script) (store : Store) (o : Outcome) (st2 : Store),
        run_closure rd closure store = (RunResult.ok o, st2) →
        ∀ k, k ∈ o.state.map Prod.fst ↔ k ∈ rawStripped rd (closure rd store).2) ∧
    (∀ (rd : RDInst) (closure : Script) (store : Store),
        (∃ k, ¬ (k ∈ ((rd.toDict (closure rd store).2).map Prod.fst) ↔
                 k ∈ rawStripped rd (closure rd store).2)) →
        run_closure rd closure store =
          (RunResult.harness HarnessError.assertionFailed, (closure rd store).2)) := by
  constructor
  · intro rd closure store o st2 h k
    obtain ⟨hc, hstate, -, -⟩ := run_closure_ok h
    rw [hstate]
    exact ((ssort_eq_perm hc).mem_iff).symm
  · intro rd closure store hdiv
    obtain ⟨k, hk⟩ := hdiv
    refine run_closure_diverge (fun hperm => hk ?_)
    exact ⟨fun hm => hperm.mem_iff.mpr hm, fun hm => hperm.mem_iff.mp hm⟩

/-- C3 witness: on the `set_key` scenario the returned state's key set
matches the stripped raw keys at the concrete key foo; on the lying
instance the key sets diverge and the assertion failure is raised. -/
theorem c3_consistency_witness :
    ((['f', 'o', 'o'] : Str) ∈ fooBarOutcome.state.map Prod.fst ↔
      (['f', 'o', 'o'] : Str) ∈ rawStripped d1 (set_key d1 []).2) ∧
    run_closure lyingInst idScript storeOneKey =
      (RunResult.harness HarnessError.assertionFailed, (idScript lyingInst storeOneKey).2) :=
  ⟨c3_consistency.1 d1 set_key [] fooBarOutcome [] rfl ['f', 'o', 'o'],
   c3_consistency.2 lyingInst idScript storeOneKey ⟨['a'], by decide⟩⟩

/-- C4: in every outcome `run_closure` returns, at most one of the
result and error fields is present; a raising script yields an absent
result and a present error, and a normally returning script yields an
absent error. -/
theorem c4_result_error_exclusive :
    ∀ (rd : RDInst) (closure : Script) (store : Store) (o : Outcome) (st2 : Store),
      run_closure rd closure store = (RunResult.ok o, st2) →
      (¬ (o.result.isSome = true ∧ o.exc.isSome = true)) ∧
      (∀ e, (closure rd store).1 = Except.error e →
        o.result = none ∧ o.exc.isSome = true) ∧
      (∀ v, (closure rd store).1 = Except.ok v → o.result = v ∧ o.exc = none) := by
  intro rd closure store o st2 h
  obtain ⟨-, -, -, hcases⟩ := run_closure_ok h
  refine ⟨?_, ?_, ?_⟩
  · rcases hcases with ⟨v, -, -, hexc⟩ | ⟨e, m, -, -, hres, -⟩
    · rw [hexc]
      simp
    · rw [hres]
      simp
  · intro e he
    rcases hcases with ⟨v, hv, -, -⟩ | ⟨e', m, -, -, hres, hexc⟩
    · rw [he] at hv
      exact Except.noConfusion hv
    · rw [hres, hexc]
      simp
  · intro v hv
    rcases hcases with ⟨v', hv', hres, hexc⟩ | ⟨e', m, he', -, -, -⟩
    · rw [hv] at hv'
      rw [hres, hexc]
      injection hv' with hvv
      exact ⟨hvv ▸ rfl, rfl⟩
    · rw [hv] at he'
      exact Except.noConfusion he'

/-- C4 witness: the outcome captured from a raising script has an
absent result and a present error, and not both fields present. -/
theorem c4_result_error_exclusive_witness :
    ¬ (errOutcome.result.isSome = true ∧ errOutcome.exc.isSome = true) ∧
    (errOutcome.result = none ∧ errOutcome.exc.isSome = true) :=
  ⟨(c4_result_error_exclusive d1 raiseWithMsg [] errOutcome [] rfl).1,
   (c4_result_error_exclusive d1 raiseWithMsg [] errOutcome [] rfl).2.1 excWithMsg rfl⟩

/-- C5: when the reference instance lacks any required operation the
scenario is skipped — never failed — whatever the wrapped testcase
(which stands for the runs against both implementations, so in
particular whatever the second implementation exposes) would do, and
the capability check touches the store on no path of its own: the skip
branch returns it unchanged. -/
theorem c5_skip_on_missing_capability :
    ∀ (functions caps1 : List Str) (testcase : Store → TestVerdict × Store) (store : Store),
      (∃ f ∈ functions, hasAttr caps1 f = false) →
      requireFunctions functions caps1 testcase store = (TestVerdict.skipped, store) ∧
      TestVerdict.skipped ≠ TestVerdict.failed := by
  intro functions caps1 testcase store hmiss
  obtain ⟨f, hf, hfa⟩ := hmiss
  refine ⟨?_, by simp⟩
  unfold requireFunctions
  rw [if_pos]
  exact List.any_eq_true.mpr
    ⟨!(hasAttr caps1 f), List.mem_map.mpr ⟨f, hf, rfl⟩, by rw [hfa]; rfl⟩

/-- C5 witness: a scenario requiring the keys operation is skipped with
the store untouched when the reference capability set is empty, even
though the testcase would have failed. -/
theorem c5_skip_on_missing_capability_witness :
    requireFunctions [['k', 'e', 'y', 's']] [] (fun st => (TestVerdict.failed, st))
      storeOneKey = (TestVerdict.skipped, storeOneKey) :=
  (c5_skip_on_missing_capability [['k', 'e', 'y', 's']] []
    (fun st => (TestVerdict.failed, st)) storeOneKey
    ⟨['k', 'e', 'y', 's'], by simp, rfl⟩).1

/-- C6: the namespace clear deletes every key starting with the shared
pattern, is the identity when no key matches, and is idempotent on the
store. -/
theorem c6_clear_spec :
    (∀ (st : Store) (k v : Str), rdPat.isPrefixOf k = true →
        (k, v) ∉ clear_test_namespace st) ∧
    (∀ st : Store, (∀ kv ∈ st, rdPat.isPrefixOf kv.1 = false) →
        clear_test_namespace st = st) ∧
    (∀ st : Store, clear_test_namespace (clear_test_namespace st) = clear_test_namespace st) := by
  refine ⟨?_, ?_, ?_⟩
  · intro st k v hk hmem
    have := (mem_clear.mp hmem).2
    rw [hk] at this
    exact Bool.noConfusion this
  · intro st h
    refine List.filter_eq_self.mpr (fun kv hkv => ?_)
    rw [h kv hkv]
    rfl
  · intro st
    refine List.filter_eq_self.mpr (fun kv hkv => ?_)
    exact (List.mem_filter.mp hkv).2

/-- C6 witness: the raw key under the reference namespace is deleted,
clearing a store with no matching key changes nothing, and clearing
twice equals clearing once on a concrete store. -/
theorem c6_clear_spec_witness :
    (fullKey ns1 ['a'], ['b', 'a', 'r']) ∉ clear_test_namespace storeOneKey ∧
    clear_test_namespace [(['x'], ['y'])] = [(['x'], ['y'])] ∧
    clear_test_namespace (clear_test_namespace storeOneKey) =
      clear_test_namespace storeOneKey :=
  ⟨c6_clear_spec.1 storeOneKey (fullKey ns1 ['a']) ['b', 'a', 'r'] (by decide),
   c6_clear_spec.2.1 [(['x'], ['y'])] (by decide),
   c6_clear_spec.2.2 storeOneKey⟩

/-- C7: against truthful instances on an empty store, the `set_key`
scenario captures for each implementation exactly the outcome with
absent result, absent error, and state mapping foo to bar, and the
diff of the two captured outcomes is empty. -/
theorem c7_set_key_scenario :
    run_closure d1 set_key [] = (RunResult.ok fooBarOutcome, []) ∧
    run_closure d2 set_key [] = (RunResult.ok fooBarOutcome, []) ∧
    fooBarOutcome.result = none ∧ fooBarOutcome.exc = none ∧
    fooBarOutcome.state = [(['f', 'o', 'o'], ['b', 'a', 'r'])] ∧
    outcomeDiffEmpty fooBarOutcome fooBarOutcome = true :=
  ⟨rfl, rfl, rfl, rfl, rfl, by decide⟩

/-- C8: the consistency check's strip count is the length of the
namespace segment before the first colon plus one: for a namespace free
of colons exactly its length plus one characters are stripped, and for
a namespace containing a colon only the part before the first colon
determines the count. -/
theorem c8_strip_delimiter :
    (∀ ns : Str, (∀ c ∈ ns, c ≠ ':') → to_rm ns = ns.length + 1) ∧
    (∀ a b : Str, (∀ c ∈ a, c ≠ ':') → to_rm (a ++ ':' :: b) = a.length + 1) := by
  constructor
  · intro ns h
    unfold to_rm
    rw [List.takeWhile_eq_self_iff.mpr (fun c hc => by simp [h c hc])]
  · intro a b h
    unfold to_rm
    rw [takeWhile_append_of_all a (':' :: b) (fun c hc => by simp [h c hc])]
    simp [List.takeWhile_cons]

/-- C8 witness: the reference namespace (no colon) strips fourteen
characters; a namespace with a colon strips according to its first
segment only. -/
theorem c8_strip_delimiter_witness :
    to_rm ns1 = 14 ∧ to_rm (['n', 's'] ++ ':' :: ['k']) = 3 :=
  ⟨c8_strip_delimiter.1 ns1 (by decide),
   c8_strip_delimiter.2 ['n', 's'] ['k'] (by decide)⟩

/-- C9: when the script raises, `run_closure` records the error only if
the exception exposes the message attribute: a raised exception lacking
it never yields a returned outcome (the capture step itself raises,
surfacing as a harness failure), and every recorded error's exception
object does expose the recorded message. -/
theorem c9_capture_needs_message :
    (∀ (rd : RDInst) (closure : Script) (store : Store) (e : PyExc),
        (closure rd store).1 = Except.error e → e.message = none →
        ∀ (o : Outcome) (st2 : Store), run_closure rd closure store ≠ (RunResult.ok o, st2)) ∧
    (∀ (rd : RDInst) (closure : Script) (store : Store) (o : Outcome) (st2 : Store)
        (ce : CapturedErr), run_closure rd closure store = (RunResult.ok o, st2) →
        o.exc = some ce → ce.object.message = some ce.message) := by
  constructor
  · intro rd closure store e he hm o st2 h
    obtain ⟨-, -, -, hcases⟩ := run_closure_ok h
    rcases hcases with ⟨v, hv, -, -⟩ | ⟨e', m, he', hm', -, -⟩
    · rw [he] at hv
      exact Except.noConfusion hv
    · rw [he] at he'
      injection he' with hee
      rw [← hee] at hm'
      rw [hm] at hm'
      exact Option.noConfusion hm'
  · intro rd closure store o st2 ce h hexc
    obtain ⟨-, -, -, hcases⟩ := run_closure_ok h
    rcases hcases with ⟨v, -, -, hnone⟩ | ⟨e', m, -, hm', -, hsome⟩
    · rw [hnone] at hexc
      exact Option.noConfusion hexc
    · rw [hsome] at hexc
      injection hexc with hce
      rw [← hce]
      exact hm'

/-- C9 witness: the message-less raise never produces an outcome, and
the recorded error from the message-carrying raise exposes exactly the
recorded message on its exception object. -/
theorem c9_capture_needs_message_witness :
    run_closure d1 raiseNoMsg [] ≠ (RunResult.ok fooBarOutcome, []) ∧
    (⟨excWithMsg, ['f', 'o', 'o']⟩ : CapturedErr).object.message =
      some (⟨excWithMsg, ['f', 'o', 'o']⟩ : CapturedErr).message :=
  ⟨c9_capture_needs_message.1 d1 raiseNoMsg [] excNoMsg rfl rfl fooBarOutcome [],
   c9_capture_needs_message.2 d1 raiseWithMsg [] errOutcome []
     ⟨excWithMsg, ['f', 'o', 'o']⟩ rfl rfl⟩

/-- C10: the cleanup inside `run_closure` is not scoped to the instance
under test: after any run against the first instance that does not end
in the assertion failure, every key starting with the second instance's
namespace has been deleted from the store as well. -/
theorem c10_cross_namespace_clear :
    ∀ (closure : Script) (store : Store) (k v : Str),
      ns2.isPrefixOf k = true →
      (run_closure d1 closure store).1 ≠ RunResult.harness HarnessError.assertionFailed →
      (k, v) ∉ (run_closure d1 closure store).2 := by
  intro closure store k v hk h hmem
  rw [run_closure_snd h] at hmem
  have := (mem_clear.mp hmem).2
  rw [isPrefixOf_trans (by decide : rdPat.isPrefixOf ns2 = true) hk] at this
  exact Bool.noConfusion this

/-- C10 witness: a raw key under the second instance's namespace,
present while the script against the first instance runs, is gone from
the store `run_closure` leaves behind. -/
theorem c10_cross_namespace_clear_witness :
    (fullKey ns2 ['a'], ['b', 'a', 'r']) ∈ storeV2Key ∧
    (fullKey ns2 ['a'], ['b', 'a', 'r']) ∉ (run_closure d1 set_key storeV2Key).2 :=
  ⟨by decide,
   c10_cross_namespace_clear set_key storeV2Key (fullKey ns2 ['a']) ['b', 'a', 'r']
     (by decide) (by decide)⟩

end RdCompare
